import Mathlib

/-!
Shallow embedding of the express-jobly core: the helper
`sqlForPartialUpdate` (src/helpers/sql.js), the `Company` and `Job`
models (src/models/company.js, src/models/job.js) and the jobs PATCH
route pipeline (src/routes/jobs.js). JavaScript objects that carry an
ordered set of string keys are embedded as association lists
`List (String × JSValue)` in key-insertion order; the database is an
explicit state of company and job rows; queries that the code builds
are returned as the statement string together with the ordered bind
value list, instead of being sent to a storage engine.
-/

set_option maxRecDepth 100000

namespace Jobly

/-- A JavaScript value as it appears in the data objects and bind lists
of this codebase: strings, numbers, booleans and null. -/
inductive JSValue where
  | str (s : String)
  | num (n : Int)
  | bool (b : Bool)
  | null
deriving DecidableEq, Repr

/-- The error kinds the code signals: `BadRequestError`,
`NotFoundError` (src/expressError, out of scope as code, kept as an
abstract kind contract), and a storage-level failure for statements
the database itself rejects. -/
inductive JError where
  | badRequest (msg : String)
  | notFound (msg : String)
  | sqlError (msg : String)
deriving DecidableEq, Repr

/-- Result shape of `sqlForPartialUpdate`: the joined SET fragment
string and the ordered bind values. -/
structure SqlUpdate where
  setCols : String
  values : List JSValue
deriving DecidableEq, Repr

/-- `jsToSql[colName] || colName` from src/helpers/sql.js line 21: the
translation table lookup, falling back to the key itself when the entry
is absent (or falsy, i.e. the empty string). -/
def lookupOr (jsToSql : List (String × String)) (colName : String) : String :=
  match jsToSql.lookup colName with
  | some s => if s = "" then colName else s
  | none => colName

/-- The `cols` list of src/helpers/sql.js line 21:
one fragment `"<column>"=$<idx+1>` per key, in key order. -/
def updateCols (keys : List String) (jsToSql : List (String × String)) : List String :=
  keys.mapIdx fun idx colName =>
    "\"" ++ lookupOr jsToSql colName ++ "\"=$" ++ toString (idx + 1)

/-- src/helpers/sql.js `sqlForPartialUpdate(dataToUpdate, jsToSql)`:
throws BadRequestError on an empty key set, otherwise returns the
comma-joined assignment fragments and `Object.values(dataToUpdate)`. -/
def sqlForPartialUpdate (dataToUpdate : List (String × JSValue))
    (jsToSql : List (String × String)) : Except JError SqlUpdate :=
  let keys := dataToUpdate.map Prod.fst
  if keys.length = 0 then
    .error (.badRequest "No data")
  else
    .ok { setCols := String.intercalate ", " (updateCols keys jsToSql)
          values := dataToUpdate.map Prod.snd }

instance {ε α : Type} [DecidableEq ε] [DecidableEq α] :
    DecidableEq (Except ε α)
  | .ok a, .ok b =>
      if h : a = b then isTrue (by rw [h]) else isFalse (by simp [h])
  | .error a, .error b =>
      if h : a = b then isTrue (by rw [h]) else isFalse (by simp [h])
  | .ok _, .error _ => isFalse (by simp)
  | .error _, .ok _ => isFalse (by simp)

example :
    sqlForPartialUpdate [("keyName", .str "val")] [("keyName", "key_name")] =
      .ok { setCols := "\"key_name\"=$1", values := [.str "val"] } := by decide

example :
    sqlForPartialUpdate
      [("keyOne", .str "val1"), ("keyTwo", .str "val2"), ("keyThree", .str "val3")]
      [("keyOne", "key_one"), ("keyTwo", "key_two"), ("keyThree", "key_three")] =
      .ok { setCols := "\"key_one\"=$1, \"key_two\"=$2, \"key_three\"=$3",
            values := [.str "val1", .str "val2", .str "val3"] } := by decide

/-! ### Filtered list queries (Company.findAll, Job.findAll) -/

/-- Filter options for `Company.findAll` (src/models/company.js):
absent fields are `undefined` in the source. -/
structure CompanyFilter where
  minEmployees : Option Int := none
  maxEmployees : Option Int := none
  name : Option String := none
deriving DecidableEq, Repr

/-- Filter options for `Job.findAll` (src/models/job.js). `hasEquity`
keeps the raw JavaScript value because the source compares it with
strict equality against `true`. -/
structure JobFilter where
  title : Option String := none
  minSalary : Option Int := none
  hasEquity : Option JSValue := none
deriving DecidableEq, Repr

/-- The JavaScript comparison `minEmployees > maxEmployees` of
src/models/company.js line 72: any comparison involving `undefined`
is false. -/
def jsGT : Option Int → Option Int → Bool
  | some a, some b => a > b
  | _, _ => false

/-- JavaScript truthiness of a possibly-absent string (`if (name)` in
src/models/company.js line 90): false for `undefined` and for the
empty string. -/
def truthyStr : Option String → Bool
  | some s => s ≠ ""
  | none => false

/-- The `whereStatements`/`whereValues` accumulation of
Company.findAll, lines 80-93: push the min bound, then the max bound,
then the truthy name, each predicate using the bind position
`whereValues.length` after its own push. -/
def companyWhere (f : CompanyFilter) : List String × List JSValue :=
  let s0 : List String × List JSValue := ([], [])
  let s1 := match f.minEmployees with
    | some m => (s0.1 ++ ["num_employees >= $" ++ toString (s0.2.length + 1)],
                 s0.2 ++ [JSValue.num m])
    | none => s0
  let s2 := match f.maxEmployees with
    | some m => (s1.1 ++ ["num_employees <= $" ++ toString (s1.2.length + 1)],
                 s1.2 ++ [JSValue.num m])
    | none => s1
  if truthyStr f.name then
    (s2.1 ++ ["name ILIKE $" ++ toString (s2.2.length + 1)],
     s2.2 ++ [JSValue.str ("%" ++ f.name.getD "" ++ "%")])
  else s2

/-- The `whereStatements`/`whereValues` accumulation of Job.findAll,
src/models/job.js lines 61-73: push the min salary, then the equity
predicate (fragment only, no value) when `hasEquity === true`, then the
title whenever it is not `undefined`. -/
def jobWhere (f : JobFilter) : List String × List JSValue :=
  let s0 : List String × List JSValue := ([], [])
  let s1 := match f.minSalary with
    | some m => (s0.1 ++ ["salary >= $" ++ toString (s0.2.length + 1)],
                 s0.2 ++ [JSValue.num m])
    | none => s0
  let s2 := if f.hasEquity = some (JSValue.bool true) then
      (s1.1 ++ ["equity > 0"], s1.2)
    else s1
  match f.title with
  | some t => (s2.1 ++ ["title ILIKE $" ++ toString (s2.2.length + 1)],
               s2.2 ++ [JSValue.str ("%" ++ t ++ "%")])
  | none => s2

/-- The base SELECT of Company.findAll (whitespace normalized to single
spaces; the template ends in whitespace before any WHERE is added). -/
def companyBaseQuery : String :=
  "SELECT handle, name, description, num_employees AS \"numEmployees\", " ++
  "logo_url AS \"logoUrl\" FROM companies "

/-- The base SELECT of Job.findAll (whitespace normalized). -/
def jobBaseQuery : String :=
  "SELECT j.id, j.title, j.salary, j.equity, j.company_handle as \"companyHandle\", " ++
  "c.name AS \"companyName\" FROM jobs j LEFT JOIN companies AS c " ++
  "ON c.handle = j.company_handle "

/-- src/models/company.js `Company.findAll(filterOptions)` up to the
storage round trip: the bad-request guard, then the accumulated WHERE
parts joined with AND (appended only when nonempty, with no space
before the trailing ORDER BY, as in the source), returning the
statement and its ordered bind values. -/
def Company.findAll (f : CompanyFilter) : Except JError (String × List JSValue) :=
  if jsGT f.minEmployees f.maxEmployees then
    .error (.badRequest "Minimum number of employees must not be greater than maximum!")
  else
    let ws := companyWhere f
    let mainQuery := companyBaseQuery ++
      (if ws.1.length > 0 then " WHERE " ++ String.intercalate " AND " ws.1 else "") ++
      "ORDER BY name"
    .ok (mainQuery, ws.2)

/-- src/models/job.js `Job.findAll(filterOptions)` up to the storage
round trip: accumulated WHERE parts joined with AND (the source adds a
trailing space after them), then ORDER BY title. -/
def Job.findAll (f : JobFilter) : Except JError (String × List JSValue) :=
  let ws := jobWhere f
  let mainQuery := jobBaseQuery ++
    (if ws.1.length > 0 then " WHERE " ++ String.intercalate " AND " ws.1 ++ " " else "") ++
    "ORDER BY title"
  .ok (mainQuery, ws.2)

/-! ### Partial-update statements (Company.update, Job.update) -/

/-- The translation table Company.update passes to
`sqlForPartialUpdate` (src/models/company.js lines 165-168). -/
def companyJsToSql : List (String × String) :=
  [("numEmployees", "num_employees"), ("logoUrl", "logo_url")]

/-- The UPDATE statement and bind list Company.update sends to storage
(src/models/company.js lines 164-179): the SET clause from the builder,
the handle placeholder at `values.length + 1`, and the bind list
`[...values, handle]`. -/
def Company.updateQuery (handle : String) (data : List (String × JSValue)) :
    Except JError (String × List JSValue) :=
  match sqlForPartialUpdate data companyJsToSql with
  | .error e => .error e
  | .ok su =>
    let handleVarIdx := "$" ++ toString (su.values.length + 1)
    .ok ("UPDATE companies SET " ++ su.setCols ++ " WHERE handle = " ++ handleVarIdx ++
           " RETURNING handle, name, description, num_employees AS \"numEmployees\", " ++
           "logo_url AS \"logoUrl\"",
         su.values ++ [JSValue.str handle])

/-- The UPDATE statement and bind list Job.update sends to storage
(src/models/job.js lines 140-152): the translation table is empty, the
id placeholder sits at `values.length + 1`, bind list `[...values, id]`. -/
def Job.updateQuery (id : Int) (data : List (String × JSValue)) :
    Except JError (String × List JSValue) :=
  match sqlForPartialUpdate data [] with
  | .error e => .error e
  | .ok su =>
    let idVarIdx := "$" ++ toString (su.values.length + 1)
    .ok ("UPDATE jobs SET " ++ su.setCols ++ " WHERE id = " ++ idVarIdx ++
           " RETURNING id, title, salary, equity, company_handle AS \"companyHandle\"",
         su.values ++ [JSValue.num id])

/-! ### Storage state and execution semantics -/

/-- A row of the companies table. -/
structure CompanyRow where
  handle : String
  name : String
  description : String
  numEmployees : Option Int
  logoUrl : Option String
deriving DecidableEq, Repr

/-- A row of the jobs table. Equity is stored as text. -/
structure JobRow where
  id : Int
  title : String
  salary : Option Int
  equity : Option String
  companyHandle : String
deriving DecidableEq, Repr

/-- The storage state: the two tables. -/
structure DBState where
  companies : List CompanyRow
  jobs : List JobRow
deriving DecidableEq, Repr

/-- The duplicate-check SELECT of Company.create (lines 20-25). -/
def companyDupCheckSql : String :=
  "SELECT handle FROM companies WHERE handle = $1"

/-- The INSERT of Company.create (lines 29-35). -/
def companyInsertSql : String :=
  "INSERT INTO companies (handle, name, description, num_employees, logo_url) " ++
  "VALUES ($1, $2, $3, $4, $5) RETURNING handle, name, description, " ++
  "num_employees AS \"numEmployees\", logo_url AS \"logoUrl\""

/-- src/models/company.js `Company.create`: runs the duplicate-check
lookup first and throws BadRequestError when a row with that handle
exists, only otherwise running the INSERT. Returns the operation result
together with the list of statements actually sent to storage, in
order. -/
def Company.create (db : DBState) (c : CompanyRow) :
    Except JError (CompanyRow × DBState) × List String :=
  let dupRows := db.companies.filter (fun r => r.handle = c.handle)
  if dupRows.isEmpty then
    (.ok (c, ⟨db.companies ++ [c], db.jobs⟩), [companyDupCheckSql, companyInsertSql])
  else
    (.error (.badRequest ("Duplicate company: " ++ c.handle)), [companyDupCheckSql])

/-- The columns of the companies table; a SET on any other name is
rejected by the storage engine when the statement is prepared. -/
def companyCols : List String :=
  ["handle", "name", "description", "num_employees", "logo_url"]

/-- The columns of the jobs table. -/
def jobCols : List String :=
  ["id", "title", "salary", "equity", "company_handle"]

/-- Storage semantics of one SET assignment on a company row: `none`
when the value cannot be stored in that column. -/
def setCompanyField (r : CompanyRow) (col : String) (v : JSValue) : Option CompanyRow :=
  match col, v with
  | "handle", .str s => some { r with handle := s }
  | "name", .str s => some { r with name := s }
  | "description", .str s => some { r with description := s }
  | "num_employees", .num n => some { r with numEmployees := some n }
  | "num_employees", .null => some { r with numEmployees := none }
  | "logo_url", .str s => some { r with logoUrl := some s }
  | "logo_url", .null => some { r with logoUrl := none }
  | _, _ => none

/-- Storage semantics of one SET assignment on a job row. -/
def setJobField (r : JobRow) (col : String) (v : JSValue) : Option JobRow :=
  match col, v with
  | "id", .num n => some { r with id := n }
  | "title", .str s => some { r with title := s }
  | "salary", .num n => some { r with salary := some n }
  | "salary", .null => some { r with salary := none }
  | "equity", .str s => some { r with equity := some s }
  | "equity", .null => some { r with equity := none }
  | "company_handle", .str s => some { r with companyHandle := s }
  | _, _ => none

/-- Apply the SET clause of a company partial update to a row, the
field names translated through `companyJsToSql` as the built statement
has them. -/
def applyCompanySet (r : CompanyRow) (data : List (String × JSValue)) : Option CompanyRow :=
  data.foldlM (fun acc kv => setCompanyField acc (lookupOr companyJsToSql kv.1) kv.2) r

/-- Apply the SET clause of a job partial update to a row (the
translation table Job.update passes is empty). -/
def applyJobSet (r : JobRow) (data : List (String × JSValue)) : Option JobRow :=
  data.foldlM (fun acc kv => setJobField acc (lookupOr [] kv.1) kv.2) r

/-- src/models/company.js `Company.update` executed against the state:
the builder may throw bad-request; the storage engine rejects the
statement when a SET column does not exist in the table; otherwise the
row matched by handle is updated and returned, and an empty match
yields NotFoundError. -/
def Company.update (db : DBState) (handle : String) (data : List (String × JSValue)) :
    Except JError (CompanyRow × DBState) :=
  match Company.updateQuery handle data with
  | .error e => .error e
  | .ok _ =>
    if data.all (fun kv => companyCols.contains (lookupOr companyJsToSql kv.1)) then
      match db.companies.find? (fun r => r.handle = handle) with
      | none => .error (.notFound ("No company: " ++ handle))
      | some r =>
        match applyCompanySet r data with
        | none => .error (.sqlError "invalid value for column")
        | some r2 =>
          .ok (r2, ⟨db.companies.map (fun x => if x.handle = handle then r2 else x), db.jobs⟩)
    else .error (.sqlError "column does not exist")

/-- src/models/job.js `Job.update` executed against the state, same
shape as Company.update but matching on id. -/
def Job.update (db : DBState) (id : Int) (data : List (String × JSValue)) :
    Except JError (JobRow × DBState) :=
  match Job.updateQuery id data with
  | .error e => .error e
  | .ok _ =>
    if data.all (fun kv => jobCols.contains (lookupOr [] kv.1)) then
      match db.jobs.find? (fun r => r.id = id) with
      | none => .error (.notFound ("Job not found: " ++ toString id))
      | some r =>
        match applyJobSet r data with
        | none => .error (.sqlError "invalid value for column")
        | some r2 =>
          .ok (r2, ⟨db.companies, db.jobs.map (fun x => if x.id = id then r2 else x)⟩)
    else .error (.sqlError "column does not exist")

/-- The per-job projection Company.get attaches (id, title, salary,
equity; handle omitted). -/
structure JobLite where
  id : Int
  title : String
  salary : Option Int
  equity : Option String
deriving DecidableEq, Repr

/-- Result shape of Company.get: the row plus its jobs. -/
structure CompanyWithJobs where
  company : CompanyRow
  jobs : List JobLite
deriving DecidableEq, Repr

/-- src/models/company.js `Company.get`: the row by handle (NotFound
when absent) plus the jobs owned by the handle, ordered by id. -/
def Company.get (db : DBState) (handle : String) : Except JError CompanyWithJobs :=
  match db.companies.find? (fun r => r.handle = handle) with
  | none => .error (.notFound ("No company: " ++ handle))
  | some r =>
    let owned := (db.jobs.filter (fun j => j.companyHandle = handle)).mergeSort
      (fun a b => a.id ≤ b.id)
    .ok ⟨r, owned.map (fun j => ⟨j.id, j.title, j.salary, j.equity⟩)⟩

/-- Result shape of Job.get: the raw handle is removed in favor of the
nested company object (absent when the company row is missing, as
`companyRes.rows[0]` would be `undefined`). -/
structure JobWithCompany where
  id : Int
  title : String
  salary : Option Int
  equity : Option String
  company : Option CompanyRow
deriving DecidableEq, Repr

/-- src/models/job.js `Job.get`: the row by id (NotFound when absent),
then the owning company attached and the handle field dropped. -/
def Job.get (db : DBState) (id : Int) : Except JError JobWithCompany :=
  match db.jobs.find? (fun j => j.id = id) with
  | none => .error (.notFound ("No job: " ++ toString id))
  | some j =>
    .ok ⟨j.id, j.title, j.salary, j.equity,
         db.companies.find? (fun c => c.handle = j.companyHandle)⟩

/-- src/models/company.js `Company.remove`: DELETE by handle RETURNING
handle; NotFoundError when nothing matched. -/
def Company.remove (db : DBState) (handle : String) : Except JError DBState :=
  let returned := db.companies.filter (fun r => r.handle = handle)
  if returned.isEmpty then .error (.notFound ("No company: " ++ handle))
  else .ok ⟨db.companies.filter (fun r => ¬ r.handle = handle), db.jobs⟩

/-- src/models/job.js `Job.remove`: DELETE by id RETURNING id;
NotFoundError when nothing matched. -/
def Job.remove (db : DBState) (id : Int) : Except JError DBState :=
  let returned := db.jobs.filter (fun j => j.id = id)
  if returned.isEmpty then .error (.notFound ("No job: " ++ toString id))
  else .ok ⟨db.companies, db.jobs.filter (fun j => ¬ j.id = id)⟩

/-! ### Route-level validation gate for PATCH /jobs/:id -/

/-- Nonempty all-digit character run, the `[0-9]+` piece of the equity
pattern. -/
def digitRun : List Char → Bool
  | [] => false
  | cs => cs.all (fun c => c.isDigit)

/-- Full match of the equity pattern `0|0?.digits` from the spec:
exactly "0", or an optional leading 0 then a dot then digits. -/
def equityPat (s : String) : Bool :=
  match s.toList with
  | ['0'] => true
  | '0' :: '.' :: rest => digitRun rest
  | '.' :: rest => digitRun rest
  | _ => false

/-- Modelled from the spec: the file schemas/jobUpdate.json that
src/routes/jobs.js validates PATCH bodies against is not under src/.
Per the spec (section 6, Schemas: job-update has all fields optional,
the same constraints as job-create — title string, salary non-negative
number, equity string matching the pattern 0|0?.digits — and rejects
unknown fields), a body passes when every property is one of the three
known fields with a conforming value. -/
def jobUpdateSchemaOk (body : List (String × JSValue)) : Bool :=
  body.all fun kv =>
    (kv.1 = "title" && (match kv.2 with | .str _ => true | _ => false)) ||
    (kv.1 = "salary" && (match kv.2 with | .num n => decide (0 ≤ n) | _ => false)) ||
    (kv.1 = "equity" && (match kv.2 with | .str s => equityPat s | _ => false))

/-- src/routes/jobs.js PATCH /jobs/:id (lines 105-118): validate the
body against the job-update schema, throwing BadRequestError made of
the validator errors when invalid, and only then call Job.update. -/
def patchJobRoute (db : DBState) (id : Int) (body : List (String × JSValue)) :
    Except JError (JobRow × DBState) :=
  if jobUpdateSchemaOk body then Job.update db id body
  else .error (.badRequest "request body does not match the job update schema")

/-! ### Claims -/

/-- C1: for every non-empty input field mapping and every translation
table, `sqlForPartialUpdate` returns one assignment fragment per input
field, in the order of the input keys, the i-th being
"<column>"=$(i+1) with the column looked up in the table (a field
absent from the table uses its own name), and the value list is the
input values in the same order; in particular on the mapping
keyName ↦ 'val' with table keyName ↦ key_name it yields setCols
"key_name"=$1 and values ['val']. -/
theorem C1_sqlForPartialUpdate_fragments
    (data : List (String × JSValue)) (jsToSql : List (String × String))
    (h : data ≠ []) :
    (∃ su, sqlForPartialUpdate data jsToSql = .ok su ∧
      su.setCols = String.intercalate ", " (updateCols (data.map Prod.fst) jsToSql) ∧
      su.values = data.map Prod.snd) ∧
    (updateCols (data.map Prod.fst) jsToSql).length = data.length ∧
    (∀ i (hi : i < data.length),
      (updateCols (data.map Prod.fst) jsToSql).get
          ⟨i, by simpa [updateCols, List.length_mapIdx] using hi⟩ =
        "\"" ++ lookupOr jsToSql ((data.map Prod.fst).get ⟨i, by simpa using hi⟩) ++
          "\"=$" ++ toString (i + 1)) ∧
    sqlForPartialUpdate [("keyName", JSValue.str "val")] [("keyName", "key_name")] =
      .ok ⟨"\"key_name\"=$1", [JSValue.str "val"]⟩ := by
  have hlen : ¬ ((data.map Prod.fst).length = 0) := by
    simp only [List.length_map, List.length_eq_zero]
    exact h
  have hmain : sqlForPartialUpdate data jsToSql =
      .ok ⟨String.intercalate ", " (updateCols (data.map Prod.fst) jsToSql),
           data.map Prod.snd⟩ := by
    unfold sqlForPartialUpdate
    simp [hlen, h]
  refine ⟨⟨_, hmain, rfl, rfl⟩, ?_, ?_, by decide⟩
  · simp [updateCols, List.length_mapIdx]
  · intro i hi
    exact List.get_mapIdx (data.map Prod.fst) _ i (by simpa using hi) _

/-- Witness for C1 at the spec's concrete example. -/
theorem C1_witness :
    ([("keyName", JSValue.str "val")] : List (String × JSValue)) ≠ [] ∧
    (updateCols ([("keyName", JSValue.str "val")].map Prod.fst)
        [("keyName", "key_name")]).length = 1 := by
  have h := C1_sqlForPartialUpdate_fragments
    [("keyName", JSValue.str "val")] [("keyName", "key_name")] (by decide)
  exact ⟨by decide, h.2.1⟩

/-- C2: `sqlForPartialUpdate` on an empty field mapping fails
bad-request, therefore `Company.update` and `Job.update` on an empty
partial-data object fail bad-request — the error branch returns before
the storage match on the state, so the result is the same error for
every state — and the builder performs no validation of value types:
it succeeds on every non-empty mapping, whatever the values. -/
theorem C2_empty_update_bad_request (jsToSql : List (String × String))
    (db : DBState) (handle : String) (id : Int)
    (k : String) (v : JSValue) (rest : List (String × JSValue)) :
    sqlForPartialUpdate [] jsToSql = .error (.badRequest "No data") ∧
    Company.update db handle [] = .error (.badRequest "No data") ∧
    Job.update db id [] = .error (.badRequest "No data") ∧
    (∃ su, sqlForPartialUpdate ((k, v) :: rest) jsToSql = .ok su) := by
  refine ⟨rfl, rfl, rfl,
    ⟨⟨String.intercalate ", " (updateCols (((k, v) :: rest).map Prod.fst) jsToSql),
      ((k, v) :: rest).map Prod.snd⟩, ?_⟩⟩
  unfold sqlForPartialUpdate
  simp

/-- C3: whenever the minEmployees bound exceeds the maxEmployees bound
(the JavaScript comparison, true only when both are present),
`Company.findAll` fails bad-request whatever the other criteria; the
guard precedes the fragment accumulation, so no fragment or bind value
is built. -/
theorem C3_company_min_above_max_bad_request (f : CompanyFilter)
    (h : jsGT f.minEmployees f.maxEmployees = true) :
    Company.findAll f =
      .error (.badRequest "Minimum number of employees must not be greater than maximum!") := by
  unfold Company.findAll
  simp [h]

/-- Witness for C3: minEmployees 3, maxEmployees 2, a name present. -/
theorem C3_witness :
    jsGT (CompanyFilter.mk (some 3) (some 2) (some "net")).minEmployees
        (CompanyFilter.mk (some 3) (some 2) (some "net")).maxEmployees = true ∧
    Company.findAll ⟨some 3, some 2, some "net"⟩ =
      .error (.badRequest "Minimum number of employees must not be greater than maximum!") :=
  ⟨by decide, C3_company_min_above_max_bad_request ⟨some 3, some 2, some "net"⟩ (by decide)⟩

/-- 1 when an optional criterion is present, else 0. -/
def countOpt {α : Type} : Option α → Nat
  | some _ => 1
  | none => 0

/-- The company predicate fragments as the spec words them: a fixed
order (numeric bounds first, then the text match), each present
criterion contributing exactly one fragment whose bind position is one
plus the number of bind values contributed before it. -/
def companyFragsSpec (f : CompanyFilter) : List String :=
  (match f.minEmployees with
   | some _ => ["num_employees >= $" ++ toString 1]
   | none => []) ++
  (match f.maxEmployees with
   | some _ => ["num_employees <= $" ++ toString (countOpt f.minEmployees + 1)]
   | none => []) ++
  (if truthyStr f.name then
     ["name ILIKE $" ++ toString (countOpt f.minEmployees + countOpt f.maxEmployees + 1)]
   else [])

/-- The company bind values in the same fixed order. -/
def companyValsSpec (f : CompanyFilter) : List JSValue :=
  (match f.minEmployees with | some m => [JSValue.num m] | none => []) ++
  (match f.maxEmployees with | some m => [JSValue.num m] | none => []) ++
  (if truthyStr f.name then [JSValue.str ("%" ++ f.name.getD "" ++ "%")] else [])

/-- The job predicate fragments as the spec words them: numeric bound
first, then the equity boolean (no bind value), then the text match. -/
def jobFragsSpec (g : JobFilter) : List String :=
  (match g.minSalary with
   | some _ => ["salary >= $" ++ toString 1]
   | none => []) ++
  (if g.hasEquity = some (JSValue.bool true) then ["equity > 0"] else []) ++
  (match g.title with
   | some _ => ["title ILIKE $" ++ toString (countOpt g.minSalary + 1)]
   | none => [])

/-- The job bind values in the same fixed order (equity contributes
none). -/
def jobValsSpec (g : JobFilter) : List JSValue :=
  (match g.minSalary with | some m => [JSValue.num m] | none => []) ++
  (match g.title with | some t => [JSValue.str ("%" ++ t ++ "%")] | none => [])

theorem companyWhere_eq (f : CompanyFilter) :
    companyWhere f = (companyFragsSpec f, companyValsSpec f) := by
  obtain ⟨mn, mx, nm⟩ := f
  cases mn <;> cases mx <;> cases htn : truthyStr nm <;>
    simp [companyWhere, companyFragsSpec, companyValsSpec, countOpt, htn]

theorem jobWhere_eq (g : JobFilter) :
    jobWhere g = (jobFragsSpec g, jobValsSpec g) := by
  obtain ⟨t, ms, he⟩ := g
  cases ms <;> cases t <;> by_cases h : he = some (JSValue.bool true) <;>
    simp [jobWhere, jobFragsSpec, jobValsSpec, countOpt, h]

/-- C4: in `Job.findAll`, the hasEquity criterion contributes no bind
value ever; when it is exactly the boolean `true` it inserts the single
fragment `equity > 0` after the numeric fragment and before the text
fragment, and for any other value (explicit false, other values,
absence) the builder output is identical to the one with the criterion
absent. -/
theorem C4_hasEquity_fragment (g : JobFilter) :
    ((jobWhere g).2 = (jobWhere ⟨g.title, g.minSalary, none⟩).2) ∧
    (g.hasEquity = some (JSValue.bool true) →
      (jobWhere g).1 =
        (jobWhere ⟨g.title, g.minSalary, none⟩).1.take (countOpt g.minSalary) ++
          ["equity > 0"] ++
          (jobWhere ⟨g.title, g.minSalary, none⟩).1.drop (countOpt g.minSalary)) ∧
    (g.hasEquity ≠ some (JSValue.bool true) →
      jobWhere g = jobWhere ⟨g.title, g.minSalary, none⟩) := by
  obtain ⟨t, ms, he⟩ := g
  refine ⟨?_, ?_, ?_⟩ <;>
    cases ms <;> cases t <;> by_cases h : he = some (JSValue.bool true) <;>
      simp [jobWhere, countOpt, h]

/-- Witness for C4: minSalary 100, title x, hasEquity exactly true. -/
theorem C4_witness :
    (JobFilter.mk (some "x") (some 100) (some (JSValue.bool true))).hasEquity =
        some (JSValue.bool true) ∧
    (jobWhere ⟨some "x", some 100, some (JSValue.bool true)⟩).1 =
      ["salary >= $1", "equity > 0", "title ILIKE $2"] := by
  have h := C4_hasEquity_fragment ⟨some "x", some 100, some (JSValue.bool true)⟩
  have h2 := h.2.1 rfl
  rw [h2]
  exact ⟨rfl, by decide⟩

/-- C5: for both findAll builders (the company one under its guard),
absent criteria contribute no fragment and no bind value, present
criteria produce fragments in the fixed per-entity order — numeric
bound(s) first, then the equity boolean, then the text match, as
`companyFragsSpec`/`jobFragsSpec` spell out — multiple fragments are
joined with " AND ", and with no criterion present the built query is
the bare base-plus-ORDER-BY statement, which contains no WHERE at
all. -/
theorem C5_filter_composition (f : CompanyFilter) (g : JobFilter)
    (hf : jsGT f.minEmployees f.maxEmployees = false) :
    companyWhere f = (companyFragsSpec f, companyValsSpec f) ∧
    jobWhere g = (jobFragsSpec g, jobValsSpec g) ∧
    Company.findAll f = .ok (companyBaseQuery ++
        (if (companyFragsSpec f).length > 0 then
          " WHERE " ++ String.intercalate " AND " (companyFragsSpec f)
        else "") ++ "ORDER BY name",
      companyValsSpec f) ∧
    Job.findAll g = .ok (jobBaseQuery ++
        (if (jobFragsSpec g).length > 0 then
          " WHERE " ++ String.intercalate " AND " (jobFragsSpec g) ++ " "
        else "") ++ "ORDER BY title",
      jobValsSpec g) ∧
    (companyFragsSpec f = [] →
      Company.findAll f = .ok (companyBaseQuery ++ "ORDER BY name", companyValsSpec f) ∧
      ¬ ("WHERE".toList <:+: (companyBaseQuery ++ "ORDER BY name").toList)) ∧
    (jobFragsSpec g = [] →
      Job.findAll g = .ok (jobBaseQuery ++ "ORDER BY title", jobValsSpec g) ∧
      ¬ ("WHERE".toList <:+: (jobBaseQuery ++ "ORDER BY title").toList)) := by
  refine ⟨companyWhere_eq f, jobWhere_eq g, ?_, ?_, ?_, ?_⟩
  · simp [Company.findAll, hf, companyWhere_eq]
  · simp [Job.findAll, jobWhere_eq]
  · intro h0
    constructor
    · simp [Company.findAll, hf, companyWhere_eq, h0]
    · decide
  · intro h0
    constructor
    · simp [Job.findAll, jobWhere_eq, h0]
    · decide

/-- Witness for C5: all criteria present on both entities, with the
company guard satisfied. -/
theorem C5_witness :
    jsGT (CompanyFilter.mk (some 1) (some 9) (some "net")).minEmployees
        (CompanyFilter.mk (some 1) (some 9) (some "net")).maxEmployees = false ∧
    Company.findAll ⟨some 1, some 9, some "net"⟩ =
      .ok (companyBaseQuery ++
        " WHERE num_employees >= $1 AND num_employees <= $2 AND name ILIKE $3" ++
        "ORDER BY name",
        [JSValue.num 1, JSValue.num 9, JSValue.str "%net%"]) ∧
    Job.findAll ⟨some "eng", some 50, some (JSValue.bool true)⟩ =
      .ok (jobBaseQuery ++
        " WHERE salary >= $1 AND equity > 0 AND title ILIKE $2 " ++ "ORDER BY title",
        [JSValue.num 50, JSValue.str "%eng%"]) := by
  have h := C5_filter_composition ⟨some 1, some 9, some "net"⟩
    ⟨some "eng", some 50, some (JSValue.bool true)⟩ (by decide)
  refine ⟨by decide, ?_, ?_⟩
  · rw [h.2.2.1]
    decide
  · rw [h.2.2.2.1]
    decide

/-- C6: for every non-empty partial update, Company.update and
Job.update put the row identifier at the placeholder one past the
generated values — an index strictly greater than the number of
generated assignment fragments — and the bind list sent to storage is
the builder's value list with the identifier appended. -/
theorem C6_update_appends_identifier (handle : String) (id : Int)
    (data : List (String × JSValue)) (h : data ≠ []) :
    (∃ su, sqlForPartialUpdate data companyJsToSql = .ok su ∧
      su.values.length = data.length ∧
      (updateCols (data.map Prod.fst) companyJsToSql).length < su.values.length + 1 ∧
      Company.updateQuery handle data =
        .ok ("UPDATE companies SET " ++ su.setCols ++ " WHERE handle = " ++
               ("$" ++ toString (su.values.length + 1)) ++
               " RETURNING handle, name, description, num_employees AS \"numEmployees\", " ++
               "logo_url AS \"logoUrl\"",
             su.values ++ [JSValue.str handle])) ∧
    (∃ su, sqlForPartialUpdate data [] = .ok su ∧
      su.values.length = data.length ∧
      (updateCols (data.map Prod.fst) []).length < su.values.length + 1 ∧
      Job.updateQuery id data =
        .ok ("UPDATE jobs SET " ++ su.setCols ++ " WHERE id = " ++
               ("$" ++ toString (su.values.length + 1)) ++
               " RETURNING id, title, salary, equity, company_handle AS \"companyHandle\"",
             su.values ++ [JSValue.num id])) := by
  have hlen : ¬ ((data.map Prod.fst).length = 0) := by
    simp only [List.length_map, List.length_eq_zero]
    exact h
  have hsqlC : sqlForPartialUpdate data companyJsToSql =
      .ok ⟨String.intercalate ", " (updateCols (data.map Prod.fst) companyJsToSql),
           data.map Prod.snd⟩ := by
    unfold sqlForPartialUpdate
    simp [hlen, h]
  have hsqlJ : sqlForPartialUpdate data [] =
      .ok ⟨String.intercalate ", " (updateCols (data.map Prod.fst) []),
           data.map Prod.snd⟩ := by
    unfold sqlForPartialUpdate
    simp [hlen, h]
  constructor
  · refine ⟨_, hsqlC, by simp, ?_, ?_⟩
    · simp [updateCols, List.length_mapIdx]
    · unfold Company.updateQuery
      rw [hsqlC]
  · refine ⟨_, hsqlJ, by simp, ?_, ?_⟩
    · simp [updateCols, List.length_mapIdx]
    · unfold Job.updateQuery
      rw [hsqlJ]

/-- Witness for C6: a one-field company update and a one-field job
update, fully evaluated. -/
theorem C6_witness :
    ([("name", JSValue.str "NewCo")] : List (String × JSValue)) ≠ [] ∧
    Company.updateQuery "c1" [("name", JSValue.str "NewCo")] =
      .ok ("UPDATE companies SET \"name\"=$1 WHERE handle = $2 RETURNING handle, " ++
             "name, description, num_employees AS \"numEmployees\", logo_url AS \"logoUrl\"",
           [JSValue.str "NewCo", JSValue.str "c1"]) := by
  have h := C6_update_appends_identifier "c1" 7 [("name", JSValue.str "NewCo")] (by decide)
  obtain ⟨su, hsql, _, _, hq⟩ := h.1
  have hsu : su = ⟨"\"name\"=$1", [JSValue.str "NewCo"]⟩ := by
    have hconc : sqlForPartialUpdate [("name", JSValue.str "NewCo")] companyJsToSql =
        .ok ⟨"\"name\"=$1", [JSValue.str "NewCo"]⟩ := by decide
    exact Except.ok.inj (hsql.symm.trans hconc)
  subst hsu
  rw [hq]
  refine ⟨by decide, ?_⟩
  decide

/-- C7: a PATCH /jobs/:id body that tries to set the owning company
handle or the job id is rejected by the validation gate with a
bad-request signal, before Job.update is consulted (the route returns
the validator error directly). -/
theorem C7_patch_rejects_handle_and_id (db : DBState) (id : Int)
    (body : List (String × JSValue)) (v : JSValue)
    (h : ("id", v) ∈ body ∨ ("companyHandle", v) ∈ body) :
    patchJobRoute db id body =
      .error (.badRequest "request body does not match the job update schema") := by
  have hbad : jobUpdateSchemaOk body = false := by
    unfold jobUpdateSchemaOk
    apply List.all_eq_false.mpr
    rcases h with h | h
    · exact ⟨("id", v), h, by simp⟩
    · exact ⟨("companyHandle", v), h, by simp⟩
  unfold patchJobRoute
  simp [hbad]

/-- Witness for C7: a body attempting to change the owning handle. -/
theorem C7_witness :
    ((("id", JSValue.str "c2") ∈
        ([("companyHandle", JSValue.str "c2")] : List (String × JSValue))) ∨
      (("companyHandle", JSValue.str "c2") ∈
        ([("companyHandle", JSValue.str "c2")] : List (String × JSValue)))) ∧
    patchJobRoute ⟨[], []⟩ 1 [("companyHandle", JSValue.str "c2")] =
      .error (.badRequest "request body does not match the job update schema") :=
  ⟨by decide,
   C7_patch_rejects_handle_and_id ⟨[], []⟩ 1 [("companyHandle", JSValue.str "c2")]
     (JSValue.str "c2") (by decide)⟩

/-- C8: Company.create on a handle that already exists fails
bad-request, and the statement trace shows only the duplicate-check
lookup — the INSERT is never sent, so the duplicate is detected by the
pre-insert lookup, not by a storage uniqueness error. -/
theorem C8_create_duplicate_precheck (db : DBState) (c : CompanyRow)
    (h : ∃ r ∈ db.companies, r.handle = c.handle) :
    Company.create db c =
      (.error (.badRequest ("Duplicate company: " ++ c.handle)), [companyDupCheckSql]) ∧
    companyInsertSql ∉ (Company.create db c).2 := by
  obtain ⟨r, hr, hh⟩ := h
  have hne : db.companies.filter (fun x => x.handle = c.handle) ≠ [] :=
    List.ne_nil_of_mem (List.mem_filter.mpr ⟨hr, by simp [hh]⟩)
  have hEmpty : (db.companies.filter (fun x => x.handle = c.handle)).isEmpty = false := by
    cases hfilter : db.companies.filter (fun x => x.handle = c.handle) with
    | nil => exact absurd hfilter hne
    | cons a as => rfl
  have hmain : Company.create db c =
      (.error (.badRequest ("Duplicate company: " ++ c.handle)), [companyDupCheckSql]) := by
    unfold Company.create
    simp [hEmpty]
  refine ⟨hmain, ?_⟩
  rw [hmain]
  show companyInsertSql ∉ [companyDupCheckSql]
  decide

/-- Witness for C8: creating c1 again over a state that has c1. -/
theorem C8_witness :
    (∃ r ∈ [CompanyRow.mk "c1" "C1" "Desc1" (some 1) none], r.handle = "c1") ∧
    Company.create ⟨[CompanyRow.mk "c1" "C1" "Desc1" (some 1) none], []⟩
        ⟨"c1", "Other", "d", none, none⟩ =
      (.error (.badRequest ("Duplicate company: " ++ "c1")), [companyDupCheckSql]) := by
  have h := C8_create_duplicate_precheck
    ⟨[CompanyRow.mk "c1" "C1" "Desc1" (some 1) none], []⟩
    ⟨"c1", "Other", "d", none, none⟩ (by decide)
  exact ⟨by decide, h.1⟩

/-- C9: when the identifier matches no stored row, get, update (with a
non-empty payload whose SET columns the table accepts) and remove all
fail not-found, on both Company and Job. -/
theorem C9_missing_row_not_found (db : DBState) (handle : String) (id : Int)
    (cdata jdata : List (String × JSValue))
    (hc : db.companies.find? (fun r => r.handle = handle) = none)
    (hj : db.jobs.find? (fun j => j.id = id) = none)
    (hcd : cdata ≠ [])
    (hcc : cdata.all (fun kv => companyCols.contains (lookupOr companyJsToSql kv.1)) = true)
    (hjd : jdata ≠ [])
    (hjc : jdata.all (fun kv => jobCols.contains (lookupOr [] kv.1)) = true) :
    Company.get db handle = .error (.notFound ("No company: " ++ handle)) ∧
    Company.update db handle cdata = .error (.notFound ("No company: " ++ handle)) ∧
    Company.remove db handle = .error (.notFound ("No company: " ++ handle)) ∧
    Job.get db id = .error (.notFound ("No job: " ++ toString id)) ∧
    Job.update db id jdata = .error (.notFound ("Job not found: " ++ toString id)) ∧
    Job.remove db id = .error (.notFound ("No job: " ++ toString id)) := by
  have hcfilter : db.companies.filter (fun r => r.handle = handle) = [] :=
    List.filter_eq_nil_iff.mpr (List.find?_eq_none.mp hc)
  have hjfilter : db.jobs.filter (fun j => j.id = id) = [] :=
    List.filter_eq_nil_iff.mpr (List.find?_eq_none.mp hj)
  have hclen : ¬ ((cdata.map Prod.fst).length = 0) := by
    simp only [List.length_map, List.length_eq_zero]
    exact hcd
  have hjlen : ¬ ((jdata.map Prod.fst).length = 0) := by
    simp only [List.length_map, List.length_eq_zero]
    exact hjd
  have hsqlC : sqlForPartialUpdate cdata companyJsToSql =
      .ok ⟨String.intercalate ", " (updateCols (cdata.map Prod.fst) companyJsToSql),
           cdata.map Prod.snd⟩ := by
    unfold sqlForPartialUpdate
    simp [hclen, hcd]
  have hsqlJ : sqlForPartialUpdate jdata [] =
      .ok ⟨String.intercalate ", " (updateCols (jdata.map Prod.fst) []),
           jdata.map Prod.snd⟩ := by
    unfold sqlForPartialUpdate
    simp [hjlen, hjd]
  have hqC : ∃ qv, Company.updateQuery handle cdata = .ok qv := by
    unfold Company.updateQuery
    rw [hsqlC]
    exact ⟨_, rfl⟩
  have hqJ : ∃ qv, Job.updateQuery id jdata = .ok qv := by
    unfold Job.updateQuery
    rw [hsqlJ]
    exact ⟨_, rfl⟩
  obtain ⟨qvC, hqC⟩ := hqC
  obtain ⟨qvJ, hqJ⟩ := hqJ
  refine ⟨?_, ?_, ?_, ?_, ?_, ?_⟩
  · simp [Company.get, hc]
  · simp only [Company.update, hqC]
    rw [if_pos hcc, hc]
  · simp [Company.remove, hcfilter]
  · simp [Job.get, hj]
  · simp only [Job.update, hqJ]
    rw [if_pos hjc, hj]
  · simp [Job.remove, hjfilter]

/-- Witness for C9 on the empty state with valid one-field payloads. -/
theorem C9_witness :
    ((⟨[], []⟩ : DBState).companies.find? (fun r => r.handle = "nope") = none) ∧
    Company.update ⟨[], []⟩ "nope" [("name", JSValue.str "x")] =
      .error (.notFound ("No company: " ++ "nope")) ∧
    Job.get (⟨[], []⟩ : DBState) 0 = .error (.notFound ("No job: " ++ toString (0 : Int))) := by
  have h := C9_missing_row_not_found ⟨[], []⟩ "nope" 0
    [("name", JSValue.str "x")] [("title", JSValue.str "x")]
    (by decide) (by decide) (by decide) (by decide) (by decide) (by decide)
  exact ⟨by decide, h.2.1, h.2.2.2.1⟩

/-- C10: in Company.findAll an empty-string name criterion contributes
nothing — the whole operation is identical to the one with the
criterion absent, because the source tests the criterion's truthiness —
whereas Job.findAll with an empty-string title (not undefined, so the
source's check passes) does append a title predicate, binding "%%". -/
theorem C10_empty_string_text_criterion (f : CompanyFilter) (g : JobFilter)
    (hf : f.name = some "") (hg : g.title = some "") :
    Company.findAll f = Company.findAll ⟨f.minEmployees, f.maxEmployees, none⟩ ∧
    (jobWhere g).1 = (jobWhere ⟨none, g.minSalary, g.hasEquity⟩).1 ++
      ["title ILIKE $" ++ toString ((jobWhere ⟨none, g.minSalary, g.hasEquity⟩).2.length + 1)] ∧
    (jobWhere g).2 = (jobWhere ⟨none, g.minSalary, g.hasEquity⟩).2 ++ [JSValue.str "%%"] := by
  obtain ⟨mn, mx, nm⟩ := f
  obtain ⟨t, ms, he⟩ := g
  simp only at hf hg
  subst hf
  subst hg
  refine ⟨?_, ?_, ?_⟩
  · simp [Company.findAll, companyWhere, truthyStr]
  · cases ms <;> by_cases h : he = some (JSValue.bool true) <;> simp [jobWhere, h]
  · cases ms <;> by_cases h : he = some (JSValue.bool true) <;> simp [jobWhere, h]

/-- Witness for C10: empty name with both employee bounds, empty title
with a salary bound and hasEquity true. -/
theorem C10_witness :
    (CompanyFilter.mk (some 1) (some 9) (some "")).name = some "" ∧
    Company.findAll ⟨some 1, some 9, some ""⟩ =
      Company.findAll ⟨some 1, some 9, none⟩ ∧
    (jobWhere ⟨some "", some 50, some (JSValue.bool true)⟩).2 =
      (jobWhere ⟨none, some 50, some (JSValue.bool true)⟩).2 ++ [JSValue.str "%%"] := by
  have h := C10_empty_string_text_criterion ⟨some 1, some 9, some ""⟩
    ⟨some "", some 50, some (JSValue.bool true)⟩ rfl rfl
  exact ⟨rfl, h.1, h.2.2⟩

end Jobly
